import Mathlib

/-!
Verification of the SlotSwapper scheduling-marketplace core: the
event / swap-request state machine implemented by the client pages
(Dashboard, Marketplace, Requests) over the `events` and `swap_requests`
tables of the SQL schema.

The embedding models the rows the client code manipulates and each
client operation as a function on an explicit database state.  Storage
calls (`insert`, `update ... eq(id)`, `delete ... eq(id)`) are modelled
as list operations on the state; uuid columns become `Nat`, timestamptz
instants become `Int`.  Each operation follows the cited client function
line by line; fallible variants make the per-call failure points of the
non-transactional call sequences explicit.
-/

namespace SlotSwapper

/-- `event_status` enum of the schema: BUSY | SWAPPABLE | SWAP_PENDING. -/
inductive EventStatus where
  | BUSY
  | SWAPPABLE
  | SWAP_PENDING
  deriving DecidableEq, Repr

/-- `swap_status` enum of the schema: PENDING | ACCEPTED | REJECTED. -/
inductive SwapStatus where
  | PENDING
  | ACCEPTED
  | REJECTED
  deriving DecidableEq, Repr

/-- A row of the `events` table, with the columns the client code reads
and writes (uuids as `Nat`, instants as `Int`, text as `List Char`; the
trigger-managed timestamp columns are not touched by any client write
and are omitted). -/
structure Event where
  id : Nat
  user_id : Nat
  title : List Char
  start_time : Int
  end_time : Int
  status : EventStatus
  deriving DecidableEq, Repr

/-- A row of the `swap_requests` table (uuids as `Nat`; trigger-managed
timestamp columns omitted as for `Event`). -/
structure SwapRequest where
  id : Nat
  requester_id : Nat
  requester_event_id : Nat
  owner_id : Nat
  owner_event_id : Nat
  status : SwapStatus
  deriving DecidableEq, Repr

/-- The persistent state: the two tables the state machine touches. -/
structure DB where
  events : List Event
  swap_requests : List SwapRequest
  deriving DecidableEq, Repr

/-- `supabase.from("events").update(f).eq("id", eventId)` issued on a
row of the acting user: apply the column assignment `f` to every event
row whose id matches.  This RLS-inert form is used only where the
target row belongs to the actor (the dashboard writes of C6/C7), where
the UPDATE policy USING clause passes and filters nothing. -/
def updateEventsById (db : DB) (eventId : Nat) (f : Event → Event) : DB :=
  { db with events := db.events.map (fun e => if e.id = eventId then f e else e) }

/-- `supabase.from("events").insert(row)`. -/
def insertEvent (db : DB) (e : Event) : DB :=
  { db with events := db.events ++ [e] }

/-- `supabase.from("events").update(f).eq("id", eventId)` as executed by
the storage layer for acting user `actor` (part_003): the UPDATE policy
USING (auth.uid() = user_id) filters the statement to the rows the
actor owns — a non-owned matching row is silently skipped with no error
— and, because the policy has no separate WITH CHECK, the same
expression constrains the updated row: if an updated row would no
longer satisfy auth.uid() = user_id, or its new user_id breaks the
events.user_id -> profiles(id) foreign key, the statement errors and
nothing changes. -/
def rlsUpdateEventsById (db : DB) (actor : Nat) (profiles : List Nat)
    (eventId : Nat) (f : Event → Event) : Except String DB :=
  if (db.events.filter (fun e => e.id = eventId ∧ e.user_id = actor)).any
      (fun e => (f e).user_id ≠ actor ∨ (f e).user_id ∉ profiles) then
    Except.error "new row violates row-level security policy for table events"
  else
    Except.ok { db with events := db.events.map (fun e => if e.id = eventId ∧ e.user_id = actor then f e else e) }

/-- `supabase.from("swap_requests").update(f).eq("id", reqId)` for
acting user `actor`: the UPDATE policy USING (auth.uid() = owner_id)
filters to requests the actor owns and constrains the updated row
(no separate WITH CHECK).  The handlers only ever write the status
column, which re-checks no foreign key. -/
def rlsUpdateRequestsById (db : DB) (actor : Nat) (reqId : Nat)
    (f : SwapRequest → SwapRequest) : Except String DB :=
  if (db.swap_requests.filter (fun r => r.id = reqId ∧ r.owner_id = actor)).any
      (fun r => (f r).owner_id ≠ actor) then
    Except.error "new row violates row-level security policy for table swap_requests"
  else
    Except.ok { db with swap_requests := db.swap_requests.map (fun r => if r.id = reqId ∧ r.owner_id = actor then f r else r) }

/-- `supabase.from("swap_requests").insert(row)` for acting user
`actor`: the INSERT policy WITH CHECK (auth.uid() = requester_id) and
the four foreign keys (requester_id, owner_id -> profiles;
requester_event_id, owner_event_id -> events) must hold or the insert
errors with no change. -/
def rlsInsertRequest (db : DB) (actor : Nat) (profiles : List Nat)
    (r : SwapRequest) : Except String DB :=
  if r.requester_id ≠ actor then
    Except.error "new row violates row-level security policy for table swap_requests"
  else if ¬(r.requester_id ∈ profiles ∧ r.owner_id ∈ profiles
      ∧ db.events.any (fun e => e.id = r.requester_event_id)
      ∧ db.events.any (fun e => e.id = r.owner_event_id)) then
    Except.error "insert violates foreign key constraint"
  else
    Except.ok { db with swap_requests := db.swap_requests ++ [r] }

deriving instance DecidableEq for Except

/-- Outcome of a client operation: `Except.ok ()` when the handler ran to
the success toast, `Except.error msg` when it returned early or threw.
The second component is the state that persists either way. -/
abbrev OpResult := Except String Unit × DB

/-- `toggleSwappable` (Dashboard): refuses SWAP_PENDING events with an
error toast and no write; otherwise flips BUSY to SWAPPABLE and anything
else (i.e. SWAPPABLE) to BUSY via one update-by-id call. -/
def toggleSwappable (db : DB) (event : Event) : OpResult :=
  if event.status = EventStatus.SWAP_PENDING then
    (Except.error "Cannot modify event during pending swap", db)
  else
    let newStatus := if event.status = EventStatus.BUSY then EventStatus.SWAPPABLE else EventStatus.BUSY
    (Except.ok (), updateEventsById db event.id (fun e => { e with status := newStatus }))

/-- `deleteEvent` (Dashboard): a single delete-by-id call with no status
check; the `ON DELETE CASCADE` foreign keys of `swap_requests` remove
every request row referencing the deleted event. When no row matches the
id nothing is deleted and no cascade fires. -/
def deleteEvent (db : DB) (eventId : Nat) : OpResult :=
  if db.events.any (fun e => e.id = eventId) then
    (Except.ok (),
     { events := db.events.filter (fun e => e.id ≠ eventId),
       swap_requests := db.swap_requests.filter
         (fun r => r.requester_event_id ≠ eventId ∧ r.owner_event_id ≠ eventId) })
  else
    (Except.ok (), db)

/-- Sequencing of the try/catch style of the handlers: when the storage
call `prev` erred, the handler rethrows and the state reached so far
(`fallback`) persists; on success the handler continues with the new
state. -/
def onOk (prev : Except String DB) (fallback : DB) (k : DB → OpResult) : OpResult :=
  match prev with
  | Except.error msg => (Except.error msg, fallback)
  | Except.ok d => k d

/-- `toggleSwappable` as executed against the schema: the status flip
goes through the RLS-checked update.  On the dashboard the event is an
own row, for which the policy filter is inert and this agrees with
`toggleSwappable`. -/
def toggleSwappableRLS (db : DB) (profiles : List Nat) (actor : Nat)
    (event : Event) : OpResult :=
  if event.status = EventStatus.SWAP_PENDING then
    (Except.error "Cannot modify event during pending swap", db)
  else
    let newStatus := if event.status = EventStatus.BUSY then EventStatus.SWAPPABLE else EventStatus.BUSY
    onOk (rlsUpdateEventsById db actor profiles event.id
        (fun e => { e with status := newStatus })) db
      (fun db2 => (Except.ok (), db2))

/-- `deleteEvent` as executed against the schema: the DELETE policy
USING (auth.uid() = user_id) restricts the delete-by-id to rows the
actor owns (a non-owned matching row is silently skipped, no error);
the cascade removes the requests referencing a row that was actually
deleted. -/
def deleteEventRLS (db : DB) (actor : Nat) (eventId : Nat) : OpResult :=
  if db.events.any (fun e => e.id = eventId ∧ e.user_id = actor) then
    (Except.ok (),
     { events := db.events.filter (fun e => ¬(e.id = eventId ∧ e.user_id = actor)),
       swap_requests := db.swap_requests.filter
         (fun r => r.requester_event_id ≠ eventId ∧ r.owner_event_id ≠ eventId) })
  else
    (Except.ok (), db)

/-- `requestSwap` (Marketplace, actor = the requester) as its sequence
of three storage calls, each executed under the policies of part_003:
call 0 inserts the PENDING request (WITH CHECK and foreign keys), call
1 sets the requesters own event to SWAP_PENDING, call 2 issues the same
update against the selected foreign slot — which the events UPDATE
policy filters to zero rows, silently.  An erroring call makes the
handler stop with the effects of the earlier calls persisting (there is
no enclosing transaction).  The source performs no status check and no
self-swap check. -/
def requestSwapRLS (db : DB) (profiles : List Nat) (actor : Nat)
    (newReqId myEventId slotUserId slotId : Nat) : OpResult :=
  onOk (rlsInsertRequest db actor profiles
      { id := newReqId, requester_id := actor, requester_event_id := myEventId,
        owner_id := slotUserId, owner_event_id := slotId, status := SwapStatus.PENDING }) db
    (fun db1 =>
      onOk (rlsUpdateEventsById db1 actor profiles myEventId
          (fun e => { e with status := EventStatus.SWAP_PENDING })) db1
        (fun db2 =>
          onOk (rlsUpdateEventsById db2 actor profiles slotId
              (fun e => { e with status := EventStatus.SWAP_PENDING })) db2
            (fun db3 => (Except.ok (), db3))))

/-- `handleResponse` (Requests, actor = the owner party) as its three
storage calls under the policies of part_003.  Accept branch, exactly
as the source writes it: call 0 updates the owner event with
`user_id := request.requester_event.id` (the requester EVENT id) and
status BUSY — the implicit WITH CHECK of the UPDATE policy and the
user_id foreign key reject that row, so the call errors; calls 1 and 2
would update the requester event and set the request ACCEPTED.  Reject
branch: call 0 sets the owner event back to SWAPPABLE, call 1 issues
the same update against the requester event (a foreign row, filtered to
zero rows), call 2 sets the request to REJECTED. -/
def handleResponseRLS (db : DB) (profiles : List Nat) (actor : Nat)
    (request : SwapRequest) (accept : Bool) : OpResult :=
  if accept then
    onOk (rlsUpdateEventsById db actor profiles request.owner_event_id
        (fun e => { e with user_id := request.requester_event_id, status := EventStatus.BUSY })) db
      (fun db1 =>
        onOk (rlsUpdateEventsById db1 actor profiles request.requester_event_id
            (fun e => { e with user_id := request.owner_event_id, status := EventStatus.BUSY })) db1
          (fun db2 =>
            onOk (rlsUpdateRequestsById db2 actor request.id
                (fun r => { r with status := SwapStatus.ACCEPTED })) db2
              (fun db3 => (Except.ok (), db3))))
  else
    onOk (rlsUpdateEventsById db actor profiles request.owner_event_id
        (fun e => { e with status := EventStatus.SWAPPABLE })) db
      (fun db1 =>
        onOk (rlsUpdateEventsById db1 actor profiles request.requester_event_id
            (fun e => { e with status := EventStatus.SWAPPABLE })) db1
          (fun db2 =>
            onOk (rlsUpdateRequestsById db2 actor request.id
                (fun r => { r with status := SwapStatus.REJECTED })) db2
              (fun db3 => (Except.ok (), db3))))

/-- The `.trim()` of the zod string schema: strip whitespace from both
ends of the character sequence. -/
def trimChars (l : List Char) : List Char :=
  ((l.dropWhile Char.isWhitespace).reverse.dropWhile Char.isWhitespace).reverse

/-- The zod `eventSchema` of the Dashboard create-event form over the
instant values of the two datetime fields: the title is trimmed and must
be 1 to 100 characters, and the parsed end instant must be strictly
after the parsed start instant (the refine step). -/
def eventSchemaCheck (title : List Char) (startTime endTime : Int) : Bool :=
  decide (1 ≤ (trimChars title).length) && decide ((trimChars title).length ≤ 100)
    && decide (startTime < endTime)

/-- `onSubmit` (Dashboard) behind its `zodResolver`: the insert runs only
when `eventSchema` validates, and stores the zod-transformed (trimmed)
title with status hard-coded to BUSY; on validation failure the form
reports the error and nothing is inserted. -/
def submitEvent (db : DB) (newId userId : Nat) (title : List Char)
    (startTime endTime : Int) : OpResult :=
  if eventSchemaCheck title startTime endTime then
    (Except.ok (), insertEvent db
      { id := newId, user_id := userId, title := trimChars title,
        start_time := startTime, end_time := endTime, status := EventStatus.BUSY })
  else
    (Except.error "ValidationError", db)

/-- Row-level-security SELECT visibility on `events` (part_003): a user
sees a row when it is their own, or when it is SWAPPABLE and not their
own. -/
def rlsCanSelectEvent (uid : Nat) (e : Event) : Bool :=
  (uid == e.user_id) || (e.status == EventStatus.SWAPPABLE && uid != e.user_id)

/-- `fetchAvailableSlots` (Marketplace): the rows RLS lets `uid` see,
further filtered by `eq(status, SWAPPABLE)` and `neq(user_id, uid)`.
The `order(start_time)` clause only sorts and is not modelled; the
claims concern which rows are returned. -/
def fetchAvailableSlots (uid : Nat) (db : DB) : List Event :=
  db.events.filter (fun e =>
    rlsCanSelectEvent uid e && e.status == EventStatus.SWAPPABLE && e.user_id != uid)

/-- Number of PENDING swap requests in `rs` referencing event `eid` as
requester-event or owner-event. -/
def pendingRefsL (rs : List SwapRequest) (eid : Nat) : Nat :=
  rs.countP (fun r => r.status == SwapStatus.PENDING
    && (r.requester_event_id == eid || r.owner_event_id == eid))

/-- `pendingRefsL` over the state. -/
def pendingRefs (db : DB) (eid : Nat) : Nat :=
  pendingRefsL db.swap_requests eid

/-- The cross-entity invariant of the spec: an event is SWAP_PENDING iff
exactly one PENDING swap request references it, and an event that is not
SWAP_PENDING is referenced by no PENDING request (the "no event may be
referenced as Pending by more than one request" half). -/
def Inv (db : DB) : Prop :=
  ∀ e ∈ db.events,
    (e.status = EventStatus.SWAP_PENDING ↔ pendingRefs db e.id = 1) ∧
    (e.status ≠ EventStatus.SWAP_PENDING → pendingRefs db e.id = 0)

instance (db : DB) : Decidable (Inv db) := by
  unfold Inv; infer_instance

/-- Primary-key integrity of the two tables: row ids are unique. -/
def WF (db : DB) : Prop :=
  (db.events.map Event.id).Nodup ∧ (db.swap_requests.map SwapRequest.id).Nodup

instance (db : DB) : Decidable (WF db) := by
  unfold WF; infer_instance

/-! Helper lemmas shared by the claim theorems. -/

theorem onOk_ok (d fallback : DB) (k : DB → OpResult) :
    onOk (Except.ok d) fallback k = k d := rfl

theorem onOk_error (msg : String) (fallback : DB) (k : DB → OpResult) :
    onOk (Except.error msg) fallback k = (Except.error msg, fallback) := rfl

theorem mem_key_unique {α : Type _} (f : α → Nat) :
    ∀ {l : List α} {e x : α}, (l.map f).Nodup → e ∈ l → x ∈ l → f x = f e → x = e := by
  intro l
  induction l with
  | nil => intro e x _ he; cases he
  | cons a t ih =>
    intro e x hnd he hx hfx
    rw [List.map_cons, List.nodup_cons] at hnd
    rcases hnd with ⟨hna, hnt⟩
    rcases List.mem_cons.mp he with he1 | he2
    · rcases List.mem_cons.mp hx with hx1 | hx2
      · rw [hx1, he1]
      · have hm : f a ∈ List.map f t := by
          rw [← he1, ← hfx]; exact List.mem_map_of_mem f hx2
        exact absurd hm hna
    · rcases List.mem_cons.mp hx with hx1 | hx2
      · have hm : f a ∈ List.map f t := by
          rw [← hx1, hfx]; exact List.mem_map_of_mem f he2
        exact absurd hm hna
      · exact ih hnt he2 hx2 hfx

theorem countP_filter_of_imp {α : Type _} (l : List α) (p : α → Bool) (q : α → Bool)
    (h : ∀ a ∈ l, p a = true → q a = true) :
    (l.filter q).countP p = l.countP p := by
  induction l with
  | nil => rfl
  | cons a t ih =>
    have ht := ih (fun x hx hpx => h x (List.mem_cons_of_mem a hx) hpx)
    by_cases hq : q a = true
    · rw [List.filter_cons_of_pos hq, List.countP_cons, List.countP_cons, ht]
    · have hp : ¬ p a = true := fun hpa => hq (h a (List.mem_cons_self a t) hpa)
      rw [List.filter_cons_of_neg hq, List.countP_cons, ht, if_neg hp]
      omega

theorem rls_status_update_ok (db : DB) (actor : Nat) (profiles : List Nat)
    (eventId : Nat) (s : EventStatus) (hap : actor ∈ profiles) :
    rlsUpdateEventsById db actor profiles eventId (fun e => { e with status := s })
      = Except.ok { db with events := db.events.map (fun e => if e.id = eventId ∧ e.user_id = actor then { e with status := s } else e) } := by
  unfold rlsUpdateEventsById
  rw [if_neg]
  intro hc
  rcases List.any_eq_true.mp hc with ⟨e, he, hpe⟩
  have heo := of_decide_eq_true (List.mem_filter.mp he).2
  rcases of_decide_eq_true hpe with h | h
  · exact h heo.2
  · rw [show ({ e with status := s } : Event).user_id = e.user_id from rfl, heo.2] at h
    exact h hap

theorem rls_request_status_update_ok (db : DB) (actor : Nat) (reqId : Nat)
    (st : SwapStatus) :
    rlsUpdateRequestsById db actor reqId (fun r => { r with status := st })
      = Except.ok { db with swap_requests := db.swap_requests.map (fun r => if r.id = reqId ∧ r.owner_id = actor then { r with status := st } else r) } := by
  unfold rlsUpdateRequestsById
  rw [if_neg]
  intro hc
  rcases List.any_eq_true.mp hc with ⟨r, hr, hpr⟩
  have hro := of_decide_eq_true (List.mem_filter.mp hr).2
  exact (of_decide_eq_true hpr) hro.2

theorem handleResponseRLS_accept_error (db : DB) (profiles : List Nat) (actor : Nat)
    (req : SwapRequest)
    (hown : ∃ x ∈ db.events, x.id = req.owner_event_id ∧ x.user_id = actor)
    (hne : req.requester_event_id ≠ actor) :
    handleResponseRLS db profiles actor req true
      = (Except.error "new row violates row-level security policy for table events", db) := by
  have herr : rlsUpdateEventsById db actor profiles req.owner_event_id
      (fun e => { e with user_id := req.requester_event_id, status := EventStatus.BUSY })
      = Except.error "new row violates row-level security policy for table events" := by
    unfold rlsUpdateEventsById
    rw [if_pos]
    rcases hown with ⟨x, hx, hid, ho⟩
    refine List.any_eq_true.mpr ⟨x, List.mem_filter.mpr ⟨hx, decide_eq_true ⟨hid, ho⟩⟩, ?_⟩
    exact decide_eq_true (Or.inl (show ({ x with user_id := req.requester_event_id, status := EventStatus.BUSY } : Event).user_id ≠ actor from hne))
  simp only [handleResponseRLS, reduceIte, herr, onOk_error]

theorem requestSwapRLS_char (db : DB) (profiles : List Nat) (actor : Nat)
    (newReqId myEventId slotUserId slotId : Nat)
    (hap : actor ∈ profiles) (hop : slotUserId ∈ profiles)
    (hme : db.events.any (fun e => e.id = myEventId) = true)
    (hse : db.events.any (fun e => e.id = slotId) = true) :
    ((requestSwapRLS db profiles actor newReqId myEventId slotUserId slotId).1
      = Except.ok ()) ∧
    ((requestSwapRLS db profiles actor newReqId myEventId slotUserId slotId).2.swap_requests
      = db.swap_requests
        ++ [⟨newReqId, actor, myEventId, slotUserId, slotId, SwapStatus.PENDING⟩]) ∧
    ((requestSwapRLS db profiles actor newReqId myEventId slotUserId slotId).2.events
      = db.events.map (fun e =>
          if (e.id = myEventId ∨ e.id = slotId) ∧ e.user_id = actor then
            { e with status := EventStatus.SWAP_PENDING }
          else e)) := by
  have hins : rlsInsertRequest db actor profiles
      ⟨newReqId, actor, myEventId, slotUserId, slotId, SwapStatus.PENDING⟩
      = Except.ok { db with swap_requests := db.swap_requests
          ++ [⟨newReqId, actor, myEventId, slotUserId, slotId, SwapStatus.PENDING⟩] } := by
    unfold rlsInsertRequest
    rw [if_neg (show ¬((⟨newReqId, actor, myEventId, slotUserId, slotId,
        SwapStatus.PENDING⟩ : SwapRequest).requester_id ≠ actor) from fun h => h rfl)]
    rw [if_neg]
    intro h
    exact h ⟨hap, hop, hme, hse⟩
  simp only [requestSwapRLS, hins, onOk_ok]
  rw [rls_status_update_ok _ actor profiles myEventId EventStatus.SWAP_PENDING hap]
  simp only [onOk_ok]
  rw [rls_status_update_ok _ actor profiles slotId EventStatus.SWAP_PENDING hap]
  simp only [onOk_ok]
  refine ⟨by trivial, by trivial, ?_⟩
  show ((db.events.map (fun e =>
      if e.id = myEventId ∧ e.user_id = actor then
        { e with status := EventStatus.SWAP_PENDING } else e)).map (fun e =>
      if e.id = slotId ∧ e.user_id = actor then
        { e with status := EventStatus.SWAP_PENDING } else e))
    = db.events.map (fun e =>
        if (e.id = myEventId ∨ e.id = slotId) ∧ e.user_id = actor then
          { e with status := EventStatus.SWAP_PENDING }
        else e)
  rw [List.map_map]
  refine List.map_congr_left ?_
  intro x _
  simp only [Function.comp]
  by_cases ho : x.user_id = actor
  · by_cases hm : x.id = myEventId
    · rw [if_pos (show x.id = myEventId ∧ x.user_id = actor from ⟨hm, ho⟩)]
      by_cases hs : x.id = slotId
      · rw [if_pos (show ({ x with status := EventStatus.SWAP_PENDING } : Event).id = slotId
            ∧ ({ x with status := EventStatus.SWAP_PENDING } : Event).user_id = actor
          from ⟨hs, ho⟩),
          if_pos (show (x.id = myEventId ∨ x.id = slotId) ∧ x.user_id = actor
            from ⟨Or.inl hm, ho⟩)]
      · rw [if_neg (show ¬(({ x with status := EventStatus.SWAP_PENDING } : Event).id = slotId
            ∧ ({ x with status := EventStatus.SWAP_PENDING } : Event).user_id = actor)
          from fun hc => hs hc.1),
          if_pos (show (x.id = myEventId ∨ x.id = slotId) ∧ x.user_id = actor
            from ⟨Or.inl hm, ho⟩)]
    · rw [if_neg (show ¬(x.id = myEventId ∧ x.user_id = actor) from fun hc => hm hc.1)]
      by_cases hs : x.id = slotId
      · rw [if_pos (show x.id = slotId ∧ x.user_id = actor from ⟨hs, ho⟩),
          if_pos (show (x.id = myEventId ∨ x.id = slotId) ∧ x.user_id = actor
            from ⟨Or.inr hs, ho⟩)]
      · rw [if_neg (show ¬(x.id = slotId ∧ x.user_id = actor) from fun hc => hs hc.1),
          if_neg (show ¬((x.id = myEventId ∨ x.id = slotId) ∧ x.user_id = actor)
            from fun hc => hc.1.elim hm hs)]
  · rw [if_neg (show ¬(x.id = myEventId ∧ x.user_id = actor) from fun hc => ho hc.2),
      if_neg (show ¬(x.id = slotId ∧ x.user_id = actor) from fun hc => ho hc.2),
      if_neg (show ¬((x.id = myEventId ∨ x.id = slotId) ∧ x.user_id = actor)
        from fun hc => ho hc.2)]

theorem handleResponseRLS_reject_char (db : DB) (profiles : List Nat) (actor : Nat)
    (req : SwapRequest) (hap : actor ∈ profiles) :
    ((handleResponseRLS db profiles actor req false).1 = Except.ok ()) ∧
    ((handleResponseRLS db profiles actor req false).2.events
      = db.events.map (fun e =>
          if (e.id = req.owner_event_id ∨ e.id = req.requester_event_id) ∧ e.user_id = actor then
            { e with status := EventStatus.SWAPPABLE }
          else e)) ∧
    ((handleResponseRLS db profiles actor req false).2.swap_requests
      = db.swap_requests.map (fun r =>
          if r.id = req.id ∧ r.owner_id = actor then
            { r with status := SwapStatus.REJECTED }
          else r)) := by
  simp only [handleResponseRLS, reduceIte]
  rw [rls_status_update_ok db actor profiles req.owner_event_id EventStatus.SWAPPABLE hap]
  simp only [onOk_ok]
  rw [rls_status_update_ok _ actor profiles req.requester_event_id EventStatus.SWAPPABLE hap]
  simp only [onOk_ok]
  rw [rls_request_status_update_ok _ actor req.id SwapStatus.REJECTED]
  simp only [onOk_ok]
  refine ⟨by trivial, ?_, by trivial⟩
  show ((db.events.map (fun e =>
      if e.id = req.owner_event_id ∧ e.user_id = actor then
        { e with status := EventStatus.SWAPPABLE } else e)).map (fun e =>
      if e.id = req.requester_event_id ∧ e.user_id = actor then
        { e with status := EventStatus.SWAPPABLE } else e))
    = db.events.map (fun e =>
        if (e.id = req.owner_event_id ∨ e.id = req.requester_event_id) ∧ e.user_id = actor then
          { e with status := EventStatus.SWAPPABLE }
        else e)
  rw [List.map_map]
  refine List.map_congr_left ?_
  intro x _
  simp only [Function.comp]
  by_cases ho : x.user_id = actor
  · by_cases hm : x.id = req.owner_event_id
    · rw [if_pos (show x.id = req.owner_event_id ∧ x.user_id = actor from ⟨hm, ho⟩)]
      by_cases hs : x.id = req.requester_event_id
      · rw [if_pos (show ({ x with status := EventStatus.SWAPPABLE } : Event).id
              = req.requester_event_id
            ∧ ({ x with status := EventStatus.SWAPPABLE } : Event).user_id = actor
          from ⟨hs, ho⟩),
          if_pos (show (x.id = req.owner_event_id ∨ x.id = req.requester_event_id)
              ∧ x.user_id = actor from ⟨Or.inl hm, ho⟩)]
      · rw [if_neg (show ¬(({ x with status := EventStatus.SWAPPABLE } : Event).id
              = req.requester_event_id
            ∧ ({ x with status := EventStatus.SWAPPABLE } : Event).user_id = actor)
          from fun hc => hs hc.1),
          if_pos (show (x.id = req.owner_event_id ∨ x.id = req.requester_event_id)
              ∧ x.user_id = actor from ⟨Or.inl hm, ho⟩)]
    · rw [if_neg (show ¬(x.id = req.owner_event_id ∧ x.user_id = actor)
        from fun hc => hm hc.1)]
      by_cases hs : x.id = req.requester_event_id
      · rw [if_pos (show x.id = req.requester_event_id ∧ x.user_id = actor from ⟨hs, ho⟩),
          if_pos (show (x.id = req.owner_event_id ∨ x.id = req.requester_event_id)
              ∧ x.user_id = actor from ⟨Or.inr hs, ho⟩)]
      · rw [if_neg (show ¬(x.id = req.requester_event_id ∧ x.user_id = actor)
            from fun hc => hs hc.1),
          if_neg (show ¬((x.id = req.owner_event_id ∨ x.id = req.requester_event_id)
              ∧ x.user_id = actor) from fun hc => hc.1.elim hm hs)]
  · rw [if_neg (show ¬(x.id = req.owner_event_id ∧ x.user_id = actor)
        from fun hc => ho hc.2),
      if_neg (show ¬(x.id = req.requester_event_id ∧ x.user_id = actor)
        from fun hc => ho hc.2),
      if_neg (show ¬((x.id = req.owner_event_id ∨ x.id = req.requester_event_id)
          ∧ x.user_id = actor) from fun hc => ho hc.2)]

theorem map_id_of_update (l : List Event) (eid : Nat) (f : Event → Event)
    (hf : ∀ x, (f x).id = x.id) :
    (l.map (fun x => if x.id = eid then f x else x)).map Event.id = l.map Event.id := by
  rw [List.map_map]
  refine List.map_congr_left ?_
  intro x _
  simp only [Function.comp]
  by_cases hid : x.id = eid
  · rw [if_pos hid]; exact hf x
  · rw [if_neg hid]

theorem inv_set_status (db : DB) (e : Event) (ns : EventStatus)
    (hwf : WF db) (hinv : Inv db) (hpre : e ∈ db.events)
    (hns : ns ≠ EventStatus.SWAP_PENDING)
    (hrefs0 : pendingRefs db e.id = 0) :
    Inv (updateEventsById db e.id (fun x => { x with status := ns }))
      ∧ WF (updateEventsById db e.id (fun x => { x with status := ns })) := by
  have hrefs_eq : ∀ z,
      pendingRefs (updateEventsById db e.id (fun x => { x with status := ns })) z
        = pendingRefs db z := fun _ => rfl
  constructor
  · intro e2 hm2
    have hm2m : e2 ∈ db.events.map
        (fun x => if x.id = e.id then ({ x with status := ns } : Event) else x) := hm2
    rcases List.mem_map.mp hm2m with ⟨x, hx, hxe2⟩
    by_cases hid : x.id = e.id
    · have hxeq : x = e := mem_key_unique Event.id hwf.1 hpre hx hid
      subst hxeq
      rw [if_pos hid] at hxe2
      subst hxe2
      refine ⟨⟨fun hc => absurd hc hns, fun hc => ?_⟩, fun _ => ?_⟩
      · rw [hrefs_eq, show ({ x with status := ns } : Event).id = x.id from rfl,
          hid, hrefs0] at hc
        exact absurd hc (by decide)
      · rw [hrefs_eq, show ({ x with status := ns } : Event).id = x.id from rfl,
          hid, hrefs0]
    · rw [if_neg hid] at hxe2
      subst hxe2
      refine ⟨?_, ?_⟩
      · rw [hrefs_eq]; exact (hinv x hx).1
      · rw [hrefs_eq]; exact (hinv x hx).2
  · constructor
    · have h := map_id_of_update db.events e.id
        (fun x => ({ x with status := ns } : Event)) (fun _ => rfl)
      show ((db.events.map
        (fun x => if x.id = e.id then ({ x with status := ns } : Event) else x)).map
          Event.id).Nodup
      rw [h]
      exact hwf.1
    · exact hwf.2

theorem inv_delete (db : DB) (eid : Nat) (hwf : WF db) (hinv : Inv db)
    (hpre : ∀ e ∈ db.events, e.id = eid → e.status ≠ EventStatus.SWAP_PENDING) :
    Inv (deleteEvent db eid).2 ∧ WF (deleteEvent db eid).2 := by
  by_cases hany : db.events.any (fun e => e.id = eid) = true
  · rcases List.any_eq_true.mp hany with ⟨e0, he0, hid0⟩
    have hid0 : e0.id = eid := of_decide_eq_true hid0
    have h0 : pendingRefs db eid = 0 := by
      have h := (hinv e0 he0).2 (hpre e0 he0 hid0)
      rwa [hid0] at h
    have hD : (deleteEvent db eid).2
        = ⟨db.events.filter (fun e => decide (e.id ≠ eid)),
           db.swap_requests.filter
             (fun r => decide (r.requester_event_id ≠ eid ∧ r.owner_event_id ≠ eid))⟩ := by
      simp only [deleteEvent, if_pos hany]
    have hq : ∀ z, pendingRefsL (db.swap_requests.filter
        (fun r => decide (r.requester_event_id ≠ eid ∧ r.owner_event_id ≠ eid))) z
        = pendingRefsL db.swap_requests z := by
      intro z
      refine countP_filter_of_imp _ _ _ ?_
      intro r hr hp
      by_contra hcq
      have href : r.requester_event_id = eid ∨ r.owner_event_id = eid := by
        rcases Decidable.em (r.requester_event_id = eid) with h | h
        · exact Or.inl h
        · rcases Decidable.em (r.owner_event_id = eid) with h2 | h2
          · exact Or.inr h2
          · exact absurd (decide_eq_true ⟨h, h2⟩) hcq
      rw [Bool.and_eq_true] at hp
      have hpe : (fun r => r.status == SwapStatus.PENDING
          && (r.requester_event_id == eid || r.owner_event_id == eid)) r = true := by
        rw [Bool.and_eq_true, Bool.or_eq_true]
        refine ⟨hp.1, ?_⟩
        rcases href with h | h
        · exact Or.inl (beq_iff_eq.mpr h)
        · exact Or.inr (beq_iff_eq.mpr h)
      have hpos : 0 < pendingRefsL db.swap_requests eid :=
        List.countP_pos_iff.mpr ⟨r, hr, hpe⟩
      rw [show pendingRefsL db.swap_requests eid = pendingRefs db eid from rfl, h0] at hpos
      exact absurd hpos (by decide)
    have hq2 : ∀ z, pendingRefs (deleteEvent db eid).2 z = pendingRefs db z := by
      intro z
      rw [hD]
      exact hq z
    constructor
    · intro e2 hm2
      rw [hD] at hm2
      have he2 : e2 ∈ db.events := (List.mem_filter.mp hm2).1
      refine ⟨?_, ?_⟩
      · rw [hq2]
        exact (hinv e2 he2).1
      · intro hn
        rw [hq2]
        exact (hinv e2 he2).2 hn
    · constructor
      · rw [hD]
        exact ((List.filter_sublist db.events).map Event.id).nodup hwf.1
      · rw [hD]
        exact ((List.filter_sublist db.swap_requests).map SwapRequest.id).nodup hwf.2
  · simp only [deleteEvent, if_neg hany]
    exact ⟨hinv, hwf⟩

/-! C2: the cross-entity invariant. -/

/-- C2 counterexample: a reachable, well-formed state satisfying the
invariant (two SWAPPABLE events of different profiles, no requests) in
which profile 10 requests a swap for the foreign slot, exactly as the
marketplace flow prescribes.  The handler reports success, but the
UPDATE against the foreign slot is filtered by the events UPDATE
policy: the slot stays SWAPPABLE while the new PENDING request
references it, so the invariant is broken by CreateSwapRequest itself.
The operations do not preserve the invariant. -/
theorem invariant_broken_by_create :
    (WF ⟨[⟨1, 10, ['a'], 0, 1, EventStatus.SWAPPABLE⟩,
          ⟨2, 20, ['b'], 0, 1, EventStatus.SWAPPABLE⟩], []⟩
      ∧ Inv ⟨[⟨1, 10, ['a'], 0, 1, EventStatus.SWAPPABLE⟩,
          ⟨2, 20, ['b'], 0, 1, EventStatus.SWAPPABLE⟩], []⟩) ∧
    ((requestSwapRLS ⟨[⟨1, 10, ['a'], 0, 1, EventStatus.SWAPPABLE⟩,
          ⟨2, 20, ['b'], 0, 1, EventStatus.SWAPPABLE⟩], []⟩ [10, 20] 10 5 1 20 2).1
      = Except.ok ()) ∧
    ¬ Inv (requestSwapRLS ⟨[⟨1, 10, ['a'], 0, 1, EventStatus.SWAPPABLE⟩,
          ⟨2, 20, ['b'], 0, 1, EventStatus.SWAPPABLE⟩], []⟩ [10, 20] 10 5 1 20 2).2 := by
  decide

/-- C2 amended: the invariant — an event is SWAP_PENDING iff exactly one
PENDING request references it, a non-SWAP_PENDING event has no PENDING
reference — together with row-id uniqueness is preserved by the
operations whose writes the storage policies let through whole: the
toggle (MarkSwappable/MarkBusy) on a stored own row of a registered
profile, DeleteEvent when the rows matching the id are the actors own
and not SWAP_PENDING, and AcceptSwapRequest — vacuously, because its
first write is rejected by the implicit WITH CHECK and the user_id
foreign key, leaving the state unchanged.  CreateSwapRequest and
RejectSwapRequest do NOT preserve the invariant: their cross-user event
update is silently filtered by the events UPDATE policy (see the
counterexample). -/
theorem statemachine_preserves_invariant (db : DB) (profiles : List Nat)
    (hwf : WF db) (hinv : Inv db) :
    (∀ (actor : Nat) (e : Event), e ∈ db.events → e.user_id = actor → actor ∈ profiles →
      Inv (toggleSwappableRLS db profiles actor e).2
        ∧ WF (toggleSwappableRLS db profiles actor e).2) ∧
    (∀ (actor eid : Nat), (∀ x ∈ db.events, x.id = eid → x.user_id = actor) →
      (∀ x ∈ db.events, x.id = eid → x.status ≠ EventStatus.SWAP_PENDING) →
      Inv (deleteEventRLS db actor eid).2 ∧ WF (deleteEventRLS db actor eid).2) ∧
    (∀ (actor : Nat) (req : SwapRequest),
      (∃ x ∈ db.events, x.id = req.owner_event_id ∧ x.user_id = actor) →
      req.requester_event_id ≠ actor →
      (handleResponseRLS db profiles actor req true).2 = db ∧
      Inv (handleResponseRLS db profiles actor req true).2 ∧
      WF (handleResponseRLS db profiles actor req true).2) := by
  refine ⟨?_, ?_, ?_⟩
  · intro actor e he hown hap
    by_cases hs : e.status = EventStatus.SWAP_PENDING
    · simp only [toggleSwappableRLS, if_pos hs]
      exact ⟨hinv, hwf⟩
    · simp only [toggleSwappableRLS, if_neg hs]
      set ns := if e.status = EventStatus.BUSY then EventStatus.SWAPPABLE else EventStatus.BUSY
        with hns_def
      rw [rls_status_update_ok db actor profiles e.id ns hap]
      simp only [onOk_ok]
      have hmaps : db.events.map (fun x =>
          if x.id = e.id ∧ x.user_id = actor then { x with status := ns } else x)
          = db.events.map (fun x => if x.id = e.id then { x with status := ns } else x) := by
        refine List.map_congr_left ?_
        intro x hx
        by_cases hid : x.id = e.id
        · have hxe : x = e := mem_key_unique Event.id hwf.1 he hx hid
          rw [if_pos (show x.id = e.id ∧ x.user_id = actor from ⟨hid, by rw [hxe, hown]⟩),
            if_pos hid]
        · rw [if_neg (show ¬(x.id = e.id ∧ x.user_id = actor) from fun hc => hid hc.1),
            if_neg hid]
      have hst : ({ db with events := db.events.map (fun x =>
          if x.id = e.id ∧ x.user_id = actor then { x with status := ns } else x) } : DB)
          = updateEventsById db e.id (fun x => { x with status := ns }) := by
        unfold updateEventsById
        rw [hmaps]
      rw [hst]
      refine inv_set_status db e ns hwf hinv he ?_ ((hinv e he).2 hs)
      by_cases hb : e.status = EventStatus.BUSY <;> simp [hns_def, hb]
  · intro actor eid hown hstat
    by_cases hany : db.events.any (fun x => x.id = eid) = true
    · have hany2 : db.events.any (fun x => x.id = eid ∧ x.user_id = actor) = true := by
        rcases List.any_eq_true.mp hany with ⟨x, hx, hpx⟩
        have hpx2 := of_decide_eq_true hpx
        exact List.any_eq_true.mpr ⟨x, hx, decide_eq_true ⟨hpx2, hown x hx hpx2⟩⟩
      have hfil : db.events.filter (fun x => ¬(x.id = eid ∧ x.user_id = actor))
          = db.events.filter (fun x => x.id ≠ eid) := by
        refine List.filter_congr ?_
        intro x hx
        refine decide_eq_decide.mpr ?_
        constructor
        · intro hnc hc
          exact hnc ⟨hc, hown x hx hc⟩
        · intro hne hc
          exact hne hc.1
      have hres : deleteEventRLS db actor eid = deleteEvent db eid := by
        unfold deleteEventRLS deleteEvent
        rw [if_pos hany2, if_pos hany, hfil]
      rw [hres]
      exact inv_delete db eid hwf hinv hstat
    · have hany2 : ¬ (db.events.any (fun x => x.id = eid ∧ x.user_id = actor) = true) := by
        intro hc
        rcases List.any_eq_true.mp hc with ⟨x, hx, hpx⟩
        exact hany (List.any_eq_true.mpr ⟨x, hx, decide_eq_true (of_decide_eq_true hpx).1⟩)
      simp only [deleteEventRLS, if_neg hany2]
      exact ⟨hinv, hwf⟩
  · intro actor req hoe hne
    have h := handleResponseRLS_accept_error db profiles actor req hoe hne
    refine ⟨?_, ?_, ?_⟩
    · rw [h]
    · rw [h]
      exact hinv
    · rw [h]
      exact hwf

/-- Witness for C2 at a concrete well-formed state (profiles 10 and 20,
one BUSY own event, one foreign event): the own-row toggle and delete
preserve the invariant, and an accept attempt leaves the state
unchanged. -/
theorem statemachine_preserves_invariant_witness :
    (Inv (toggleSwappableRLS ⟨[⟨1, 10, ['a'], 0, 1, EventStatus.BUSY⟩,
        ⟨2, 20, ['b'], 0, 1, EventStatus.SWAPPABLE⟩], []⟩ [10, 20] 10
        ⟨1, 10, ['a'], 0, 1, EventStatus.BUSY⟩).2
      ∧ WF (toggleSwappableRLS ⟨[⟨1, 10, ['a'], 0, 1, EventStatus.BUSY⟩,
        ⟨2, 20, ['b'], 0, 1, EventStatus.SWAPPABLE⟩], []⟩ [10, 20] 10
        ⟨1, 10, ['a'], 0, 1, EventStatus.BUSY⟩).2) ∧
    (Inv (deleteEventRLS ⟨[⟨1, 10, ['a'], 0, 1, EventStatus.BUSY⟩,
        ⟨2, 20, ['b'], 0, 1, EventStatus.SWAPPABLE⟩], []⟩ 10 1).2
      ∧ WF (deleteEventRLS ⟨[⟨1, 10, ['a'], 0, 1, EventStatus.BUSY⟩,
        ⟨2, 20, ['b'], 0, 1, EventStatus.SWAPPABLE⟩], []⟩ 10 1).2) ∧
    ((handleResponseRLS ⟨[⟨1, 10, ['a'], 0, 1, EventStatus.BUSY⟩,
        ⟨2, 20, ['b'], 0, 1, EventStatus.SWAPPABLE⟩], []⟩ [10, 20] 20
        ⟨5, 10, 1, 20, 2, SwapStatus.PENDING⟩ true).2
      = ⟨[⟨1, 10, ['a'], 0, 1, EventStatus.BUSY⟩,
          ⟨2, 20, ['b'], 0, 1, EventStatus.SWAPPABLE⟩], []⟩) := by
  have h := statemachine_preserves_invariant
    ⟨[⟨1, 10, ['a'], 0, 1, EventStatus.BUSY⟩,
      ⟨2, 20, ['b'], 0, 1, EventStatus.SWAPPABLE⟩], []⟩ [10, 20] (by decide) (by decide)
  exact ⟨h.1 10 ⟨1, 10, ['a'], 0, 1, EventStatus.BUSY⟩ (by decide) rfl (by decide),
    h.2.1 10 1 (by decide) (by decide),
    (h.2.2 20 ⟨5, 10, 1, 20, 2, SwapStatus.PENDING⟩
      ⟨⟨2, 20, ['b'], 0, 1, EventStatus.SWAPPABLE⟩, by decide, rfl, rfl⟩ (by decide)).1⟩

/-! C6: owner status toggling. -/

/-- C6: for an event owned by the acting user, `toggleSwappable` turns a
BUSY event SWAPPABLE and a SWAPPABLE event BUSY through one update-by-id
call that touches no other column and no request row, and on a
SWAP_PENDING event it fails with the error toast and performs no write. -/
theorem toggleSwappable_spec (db : DB) (actor : Nat) (e : Event)
    (_hown : e.user_id = actor) :
    (e.status = EventStatus.BUSY →
      (toggleSwappable db e).1 = Except.ok () ∧
      (toggleSwappable db e).2.events
        = db.events.map (fun x =>
            if x.id = e.id then { x with status := EventStatus.SWAPPABLE } else x) ∧
      (toggleSwappable db e).2.swap_requests = db.swap_requests) ∧
    (e.status = EventStatus.SWAPPABLE →
      (toggleSwappable db e).1 = Except.ok () ∧
      (toggleSwappable db e).2.events
        = db.events.map (fun x =>
            if x.id = e.id then { x with status := EventStatus.BUSY } else x) ∧
      (toggleSwappable db e).2.swap_requests = db.swap_requests) ∧
    (e.status = EventStatus.SWAP_PENDING →
      (toggleSwappable db e).1 = Except.error "Cannot modify event during pending swap" ∧
      (toggleSwappable db e).2 = db) := by
  refine ⟨?_, ?_, ?_⟩ <;> intro hs <;>
    simp [toggleSwappable, updateEventsById, hs]

/-- Witness for C6 at concrete states: a BUSY event is toggled to
SWAPPABLE, a SWAPPABLE one back to BUSY, and a SWAP_PENDING one is
refused with the state unchanged. -/
theorem toggleSwappable_spec_witness :
    ((toggleSwappable ⟨[⟨1, 10, ['a'], 0, 1, EventStatus.BUSY⟩], []⟩
        ⟨1, 10, ['a'], 0, 1, EventStatus.BUSY⟩).2.events
      = [⟨1, 10, ['a'], 0, 1, EventStatus.SWAPPABLE⟩]) ∧
    ((toggleSwappable ⟨[⟨2, 10, ['b'], 0, 1, EventStatus.SWAPPABLE⟩], []⟩
        ⟨2, 10, ['b'], 0, 1, EventStatus.SWAPPABLE⟩).2.events
      = [⟨2, 10, ['b'], 0, 1, EventStatus.BUSY⟩]) ∧
    ((toggleSwappable ⟨[⟨3, 10, ['c'], 0, 1, EventStatus.SWAP_PENDING⟩], []⟩
        ⟨3, 10, ['c'], 0, 1, EventStatus.SWAP_PENDING⟩).2
      = ⟨[⟨3, 10, ['c'], 0, 1, EventStatus.SWAP_PENDING⟩], []⟩) := by
  refine ⟨?_, ?_, ?_⟩
  · have h := ((toggleSwappable_spec ⟨[⟨1, 10, ['a'], 0, 1, EventStatus.BUSY⟩], []⟩ 10
      ⟨1, 10, ['a'], 0, 1, EventStatus.BUSY⟩ rfl).1 rfl).2.1
    rw [h]; decide
  · have h := ((toggleSwappable_spec ⟨[⟨2, 10, ['b'], 0, 1, EventStatus.SWAPPABLE⟩], []⟩ 10
      ⟨2, 10, ['b'], 0, 1, EventStatus.SWAPPABLE⟩ rfl).2.1 rfl).2.1
    rw [h]; decide
  · exact ((toggleSwappable_spec ⟨[⟨3, 10, ['c'], 0, 1, EventStatus.SWAP_PENDING⟩], []⟩ 10
      ⟨3, 10, ['c'], 0, 1, EventStatus.SWAP_PENDING⟩ rfl).2.2 rfl).2

/-! C8: event-creation validation. -/

/-- C8: event creation succeeds only when the trimmed title has length
between 1 and 100 and the end instant is strictly after the start
instant; every input violating these rules is rejected with a
ValidationError and the state is unchanged (no event inserted). -/
theorem submitEvent_validation (db : DB) (newId userId : Nat) (title : List Char)
    (s t : Int) :
    ((submitEvent db newId userId title s t).1 = Except.ok () →
      1 ≤ (trimChars title).length ∧ (trimChars title).length ≤ 100 ∧ s < t) ∧
    (¬(1 ≤ (trimChars title).length ∧ (trimChars title).length ≤ 100 ∧ s < t) →
      submitEvent db newId userId title s t = (Except.error "ValidationError", db)) := by
  have hiff : eventSchemaCheck title s t = true ↔
      (1 ≤ (trimChars title).length ∧ (trimChars title).length ≤ 100 ∧ s < t) := by
    simp [eventSchemaCheck, and_assoc]
  by_cases hb : eventSchemaCheck title s t = true
  · refine ⟨fun _ => hiff.mp hb, fun hc => absurd (hiff.mp hb) hc⟩
  · refine ⟨fun hok => ?_, fun _ => ?_⟩
    · simp [submitEvent, hb] at hok
    · simp [submitEvent, hb]

/-- Witness for C8: the empty title is rejected with no insert, and a
successful creation implies the validation conditions. -/
theorem submitEvent_validation_witness :
    (submitEvent ⟨[], []⟩ 1 10 [] 0 5 = (Except.error "ValidationError", ⟨[], []⟩)) ∧
    (1 ≤ (trimChars ['h', 'i']).length ∧ (trimChars ['h', 'i']).length ≤ 100 ∧ (0 : Int) < 5) := by
  constructor
  · exact (submitEvent_validation ⟨[], []⟩ 1 10 [] 0 5).2 (by decide)
  · exact (submitEvent_validation ⟨[], []⟩ 1 10 ['h', 'i'] 0 5).1 rfl

/-! C10: created events start BUSY. -/

/-- C10: every successful creation inserts exactly one event row, with
the trimmed title and status hard-coded to BUSY regardless of the input;
the request table is untouched. -/
theorem submitEvent_status_busy (db : DB) (newId userId : Nat) (title : List Char)
    (s t : Int) (h : (submitEvent db newId userId title s t).1 = Except.ok ()) :
    (submitEvent db newId userId title s t).2.events
      = db.events ++ [⟨newId, userId, trimChars title, s, t, EventStatus.BUSY⟩] ∧
    (submitEvent db newId userId title s t).2.swap_requests = db.swap_requests := by
  by_cases hb : eventSchemaCheck title s t = true
  · simp [submitEvent, insertEvent, hb]
  · simp [submitEvent, hb] at h

/-- Witness for C10 at a concrete successful creation. -/
theorem submitEvent_status_busy_witness :
    (submitEvent ⟨[], []⟩ 1 10 [' ', 'h', 'i', ' '] 0 5).2.events
      = [] ++ [⟨1, 10, trimChars [' ', 'h', 'i', ' '], 0, 5, EventStatus.BUSY⟩] :=
  (submitEvent_status_busy ⟨[], []⟩ 1 10 [' ', 'h', 'i', ' '] 0 5 rfl).1

/-! C9: the marketplace query. -/

/-- C9: `fetchAvailableSlots` returns exactly the stored events that are
SWAPPABLE and belong to a profile other than the querying one; and the
row-level-security SELECT policy lets a profile see another profiles
event exactly when it is SWAPPABLE. -/
theorem fetchAvailableSlots_spec (uid : Nat) (db : DB) :
    (∀ e : Event, e ∈ fetchAvailableSlots uid db ↔
      e ∈ db.events ∧ e.status = EventStatus.SWAPPABLE ∧ e.user_id ≠ uid) ∧
    (∀ e : Event, e.user_id ≠ uid →
      (rlsCanSelectEvent uid e = true ↔ e.status = EventStatus.SWAPPABLE)) := by
  constructor
  · intro e
    simp only [fetchAvailableSlots, List.mem_filter, Bool.and_eq_true, Bool.or_eq_true,
      rlsCanSelectEvent, beq_iff_eq, bne_iff_ne]
    constructor
    · intro h
      exact ⟨h.1, h.2.1.2, h.2.2⟩
    · intro h
      refine ⟨h.1, ⟨Or.inr ⟨h.2.1, ?_⟩, h.2.1⟩, h.2.2⟩
      intro hc
      exact h.2.2 hc.symm
  · intro e hu
    simp only [rlsCanSelectEvent, Bool.or_eq_true, Bool.and_eq_true, beq_iff_eq, bne_iff_ne]
    constructor
    · intro h
      rcases h with h | h
      · exact absurd h.symm hu
      · exact h.1
    · intro hs
      refine Or.inr ⟨hs, ?_⟩
      intro hc
      exact hu hc.symm

/-- Witness for C9 at a concrete store: the query returns the foreign
SWAPPABLE event and nothing else, and RLS hides a foreign BUSY event. -/
theorem fetchAvailableSlots_spec_witness :
    (⟨2, 20, ['b'], 0, 1, EventStatus.SWAPPABLE⟩ ∈
      fetchAvailableSlots 10 ⟨[⟨1, 10, ['a'], 0, 1, EventStatus.SWAPPABLE⟩,
        ⟨2, 20, ['b'], 0, 1, EventStatus.SWAPPABLE⟩,
        ⟨3, 20, ['c'], 0, 1, EventStatus.BUSY⟩], []⟩) ∧
    rlsCanSelectEvent 10 ⟨3, 20, ['c'], 0, 1, EventStatus.BUSY⟩ = false := by
  constructor
  · exact ((fetchAvailableSlots_spec 10 ⟨[⟨1, 10, ['a'], 0, 1, EventStatus.SWAPPABLE⟩,
      ⟨2, 20, ['b'], 0, 1, EventStatus.SWAPPABLE⟩,
      ⟨3, 20, ['c'], 0, 1, EventStatus.BUSY⟩], []⟩).1
        ⟨2, 20, ['b'], 0, 1, EventStatus.SWAPPABLE⟩).mpr (by decide)
  · have h := (fetchAvailableSlots_spec 10 ⟨[], []⟩).2
      ⟨3, 20, ['c'], 0, 1, EventStatus.BUSY⟩ (by decide)
    by_contra hc
    rw [Bool.not_eq_false] at hc
    exact absurd (h.mp hc) (by decide)

/-! C7: deleting an event has no status guard. -/

/-- C7 counterexample: `deleteEvent` called on a SWAP_PENDING event
reports success and removes the event row (and, through the cascade,
the PENDING request referencing it), rather than failing with
InvalidState and removing nothing. -/
theorem deleteEvent_swap_pending_counterexample :
    deleteEvent ⟨[⟨1, 10, ['a'], 0, 1, EventStatus.SWAP_PENDING⟩],
        [⟨5, 10, 1, 20, 2, SwapStatus.PENDING⟩]⟩ 1
      = (Except.ok (), ⟨[], []⟩) := by
  decide

/-- C7 amended: for every stored event id, `deleteEvent` succeeds and
removes exactly the rows with that id regardless of their status
(including SWAP_PENDING), cascading away every request that references
the id; the only SwapPending protection is the disabled delete button in
the dashboard UI, not an InvalidState failure of the handler. -/
theorem deleteEvent_no_status_guard (db : DB) (eid : Nat)
    (h : ∃ e ∈ db.events, e.id = eid) :
    (deleteEvent db eid).1 = Except.ok () ∧
    (∀ e : Event, e ∈ (deleteEvent db eid).2.events ↔ e ∈ db.events ∧ e.id ≠ eid) ∧
    (∀ r : SwapRequest, r ∈ (deleteEvent db eid).2.swap_requests ↔
      r ∈ db.swap_requests ∧ r.requester_event_id ≠ eid ∧ r.owner_event_id ≠ eid) := by
  have hany : db.events.any (fun e => e.id = eid) = true := by
    rcases h with ⟨e, he, heq⟩
    exact List.any_eq_true.mpr ⟨e, he, by simp [heq]⟩
  refine ⟨?_, ?_, ?_⟩
  · simp [deleteEvent, hany]
  · intro e
    simp [deleteEvent, hany, List.mem_filter]
  · intro r
    simp [deleteEvent, hany, List.mem_filter]

/-- Witness for C7 at a concrete state: deleting a SWAP_PENDING event
succeeds and the event row is gone afterwards. -/
theorem deleteEvent_no_status_guard_witness :
    ((deleteEvent ⟨[⟨1, 10, ['a'], 0, 1, EventStatus.SWAP_PENDING⟩],
        [⟨5, 10, 1, 20, 2, SwapStatus.PENDING⟩]⟩ 1).1 = Except.ok ()) ∧
    (⟨1, 10, ['a'], 0, 1, EventStatus.SWAP_PENDING⟩ ∉
      (deleteEvent ⟨[⟨1, 10, ['a'], 0, 1, EventStatus.SWAP_PENDING⟩],
        [⟨5, 10, 1, 20, 2, SwapStatus.PENDING⟩]⟩ 1).2.events) := by
  have h := deleteEvent_no_status_guard ⟨[⟨1, 10, ['a'], 0, 1, EventStatus.SWAP_PENDING⟩],
      [⟨5, 10, 1, 20, 2, SwapStatus.PENDING⟩]⟩ 1
    ⟨⟨1, 10, ['a'], 0, 1, EventStatus.SWAP_PENDING⟩, by decide, rfl⟩
  refine ⟨h.1, fun hc => ?_⟩
  exact ((h.2.1 ⟨1, 10, ['a'], 0, 1, EventStatus.SWAP_PENDING⟩).mp hc).2 rfl

/-! C5: rejecting a swap request. -/

/-- C5 counterexample: at a reachable pending swap (requester event 1
SWAP_PENDING, owner slot 2 SWAPPABLE, request 5 PENDING) the owner
rejects.  The handler reports success and the request becomes REJECTED,
but the update of the requester event matches zero rows under the
events UPDATE policy, so event 1 stays SWAP_PENDING: the claim that
both referenced events are set back to Swappable is false. -/
theorem handleResponse_reject_requester_stuck :
    (handleResponseRLS ⟨[⟨1, 10, ['a'], 0, 1, EventStatus.SWAP_PENDING⟩,
        ⟨2, 20, ['b'], 0, 1, EventStatus.SWAPPABLE⟩],
        [⟨5, 10, 1, 20, 2, SwapStatus.PENDING⟩]⟩ [10, 20] 20
        ⟨5, 10, 1, 20, 2, SwapStatus.PENDING⟩ false
      = (Except.ok (), ⟨[⟨1, 10, ['a'], 0, 1, EventStatus.SWAP_PENDING⟩,
          ⟨2, 20, ['b'], 0, 1, EventStatus.SWAPPABLE⟩],
          [⟨5, 10, 1, 20, 2, SwapStatus.REJECTED⟩]⟩)) ∧
    ¬ ((handleResponseRLS ⟨[⟨1, 10, ['a'], 0, 1, EventStatus.SWAP_PENDING⟩,
        ⟨2, 20, ['b'], 0, 1, EventStatus.SWAPPABLE⟩],
        [⟨5, 10, 1, 20, 2, SwapStatus.PENDING⟩]⟩ [10, 20] 20
        ⟨5, 10, 1, 20, 2, SwapStatus.PENDING⟩ false).2.events.map Event.status
      = [EventStatus.SWAPPABLE, EventStatus.SWAPPABLE]) := by
  decide

/-- C5 amended: for a PENDING request rejected by a registered actor,
the handler reports success, sets the request rows the actor owns to
REJECTED, sets only the actors OWN rows among the two referenced events
to SWAPPABLE, and never alters owning-profile references, titles or
times of any surviving row; every event row of another profile — in
particular the requester event — survives completely unchanged, so it
keeps its SWAP_PENDING status. -/
theorem handleResponse_reject_spec (db : DB) (profiles : List Nat) (actor : Nat)
    (req : SwapRequest) (_hpend : req.status = SwapStatus.PENDING)
    (hap : actor ∈ profiles) :
    ((handleResponseRLS db profiles actor req false).1 = Except.ok ()) ∧
    ((handleResponseRLS db profiles actor req false).2.events
      = db.events.map (fun e =>
          if (e.id = req.owner_event_id ∨ e.id = req.requester_event_id) ∧ e.user_id = actor then
            { e with status := EventStatus.SWAPPABLE }
          else e)) ∧
    ((handleResponseRLS db profiles actor req false).2.swap_requests
      = db.swap_requests.map (fun r =>
          if r.id = req.id ∧ r.owner_id = actor then
            { r with status := SwapStatus.REJECTED }
          else r)) ∧
    (∀ e ∈ db.events, e.user_id ≠ actor →
      e ∈ (handleResponseRLS db profiles actor req false).2.events) ∧
    (∀ e2 ∈ (handleResponseRLS db profiles actor req false).2.events, ∃ e ∈ db.events,
      e2.id = e.id ∧ e2.user_id = e.user_id ∧ e2.title = e.title ∧
      e2.start_time = e.start_time ∧ e2.end_time = e.end_time) := by
  have hchar := handleResponseRLS_reject_char db profiles actor req hap
  refine ⟨hchar.1, hchar.2.1, hchar.2.2, ?_, ?_⟩
  · intro e he hne
    rw [hchar.2.1]
    refine List.mem_map.mpr ⟨e, he, ?_⟩
    rw [if_neg (show ¬((e.id = req.owner_event_id ∨ e.id = req.requester_event_id)
        ∧ e.user_id = actor) from fun hc => hne hc.2)]
  · intro e2 hm
    rw [hchar.2.1] at hm
    rcases List.mem_map.mp hm with ⟨e, he, hxe⟩
    subst hxe
    refine ⟨e, he, ?_⟩
    by_cases h : (e.id = req.owner_event_id ∨ e.id = req.requester_event_id)
        ∧ e.user_id = actor <;> simp [h]

/-- Witness for C5 at the concrete pending swap: the owners own slot is
reverted, the foreign requester event is untouched, the request becomes
REJECTED. -/
theorem handleResponse_reject_spec_witness :
    (handleResponseRLS ⟨[⟨1, 10, ['a'], 0, 1, EventStatus.SWAP_PENDING⟩,
        ⟨2, 20, ['b'], 0, 1, EventStatus.SWAPPABLE⟩],
        [⟨5, 10, 1, 20, 2, SwapStatus.PENDING⟩]⟩ [10, 20] 20
        ⟨5, 10, 1, 20, 2, SwapStatus.PENDING⟩ false).2.events
      = [⟨1, 10, ['a'], 0, 1, EventStatus.SWAP_PENDING⟩,
         ⟨2, 20, ['b'], 0, 1, EventStatus.SWAPPABLE⟩].map (fun e =>
          if (e.id = 2 ∨ e.id = 1) ∧ e.user_id = 20 then
            { e with status := EventStatus.SWAPPABLE }
          else e) :=
  (handleResponse_reject_spec ⟨[⟨1, 10, ['a'], 0, 1, EventStatus.SWAP_PENDING⟩,
      ⟨2, 20, ['b'], 0, 1, EventStatus.SWAPPABLE⟩],
      [⟨5, 10, 1, 20, 2, SwapStatus.PENDING⟩]⟩ [10, 20] 20
    ⟨5, 10, 1, 20, 2, SwapStatus.PENDING⟩ rfl (by decide)).2.1

/-! C1: accepting a swap request (code bug). -/

/-- C1: evaluation of the accept branch at its failing input, a
reachable pending swap (requester event 1 of profile 10 SWAP_PENDING,
owner slot 2 of profile 20 SWAPPABLE, request 5 PENDING); the owner
accepts.  The source writes `request.requester_event.id` — the EVENT id
1 — into the user_id column of the own row; the implicit WITH CHECK of
the events UPDATE policy and the user_id -> profiles foreign key reject
that row, so the very first storage call errors: the state is
unchanged, the request stays PENDING, the owners stay [10, 20], and the
owner exchange the spec requires never happens. -/
theorem handleResponse_accept_bug :
    (handleResponseRLS ⟨[⟨1, 10, ['a'], 0, 1, EventStatus.SWAP_PENDING⟩,
        ⟨2, 20, ['b'], 0, 1, EventStatus.SWAPPABLE⟩],
        [⟨5, 10, 1, 20, 2, SwapStatus.PENDING⟩]⟩ [10, 20] 20
        ⟨5, 10, 1, 20, 2, SwapStatus.PENDING⟩ true
      = (Except.error "new row violates row-level security policy for table events",
         ⟨[⟨1, 10, ['a'], 0, 1, EventStatus.SWAP_PENDING⟩,
           ⟨2, 20, ['b'], 0, 1, EventStatus.SWAPPABLE⟩],
          [⟨5, 10, 1, 20, 2, SwapStatus.PENDING⟩]⟩)) ∧
    ((handleResponseRLS ⟨[⟨1, 10, ['a'], 0, 1, EventStatus.SWAP_PENDING⟩,
        ⟨2, 20, ['b'], 0, 1, EventStatus.SWAPPABLE⟩],
        [⟨5, 10, 1, 20, 2, SwapStatus.PENDING⟩]⟩ [10, 20] 20
        ⟨5, 10, 1, 20, 2, SwapStatus.PENDING⟩ true).2.events.map Event.user_id
      = [10, 20]) := by
  decide

/-! C3: creating a swap request performs no validation. -/

/-- C3 counterexample: the foreign slot (event 2) is BUSY, not
SWAPPABLE, yet `requestSwap` reports success and changes the state: the
PENDING request is inserted and the requesters own event becomes
SWAP_PENDING.  It neither fails with InvalidState nor leaves the state
unchanged (and no SelfSwap check exists anywhere in the handler). -/
theorem requestSwap_busy_counterexample :
    ((requestSwapRLS ⟨[⟨1, 10, ['a'], 0, 1, EventStatus.SWAPPABLE⟩,
        ⟨2, 20, ['b'], 0, 1, EventStatus.BUSY⟩], []⟩ [10, 20] 10 5 1 20 2).1
      = Except.ok ()) ∧
    ((requestSwapRLS ⟨[⟨1, 10, ['a'], 0, 1, EventStatus.SWAPPABLE⟩,
        ⟨2, 20, ['b'], 0, 1, EventStatus.BUSY⟩], []⟩ [10, 20] 10 5 1 20 2).2
      = ⟨[⟨1, 10, ['a'], 0, 1, EventStatus.SWAP_PENDING⟩,
          ⟨2, 20, ['b'], 0, 1, EventStatus.BUSY⟩],
         [⟨5, 10, 1, 20, 2, SwapStatus.PENDING⟩]⟩) ∧
    ((⟨[⟨1, 10, ['a'], 0, 1, EventStatus.SWAP_PENDING⟩,
          ⟨2, 20, ['b'], 0, 1, EventStatus.BUSY⟩],
         [⟨5, 10, 1, 20, 2, SwapStatus.PENDING⟩]⟩ : DB)
      ≠ ⟨[⟨1, 10, ['a'], 0, 1, EventStatus.SWAPPABLE⟩,
          ⟨2, 20, ['b'], 0, 1, EventStatus.BUSY⟩], []⟩) := by
  decide

/-- C3 amended: `requestSwap` performs no status check and no self-swap
check: whenever the referenced rows exist (so the insert passes its
foreign keys) it reports success, appends the PENDING request, sets the
requesters own rows matching either event id to SWAP_PENDING, and
leaves every foreign row — whatever its status — unchanged, because the
events UPDATE policy filters the slot update to zero rows.  The
Swappable-only and not-own-event preconditions exist only upstream, in
which rows the two marketplace queries offer. -/
theorem requestSwap_no_validation (db : DB) (profiles : List Nat) (actor : Nat)
    (newReqId myEventId slotUserId slotId : Nat)
    (hap : actor ∈ profiles) (hop : slotUserId ∈ profiles)
    (hme : ∃ e ∈ db.events, e.id = myEventId) (hse : ∃ e ∈ db.events, e.id = slotId) :
    ((requestSwapRLS db profiles actor newReqId myEventId slotUserId slotId).1
      = Except.ok ()) ∧
    ((requestSwapRLS db profiles actor newReqId myEventId slotUserId slotId).2.swap_requests
      = db.swap_requests
        ++ [⟨newReqId, actor, myEventId, slotUserId, slotId, SwapStatus.PENDING⟩]) ∧
    ((requestSwapRLS db profiles actor newReqId myEventId slotUserId slotId).2.events
      = db.events.map (fun e =>
          if (e.id = myEventId ∨ e.id = slotId) ∧ e.user_id = actor then
            { e with status := EventStatus.SWAP_PENDING }
          else e)) ∧
    (∀ e ∈ db.events, e.user_id ≠ actor →
      e ∈ (requestSwapRLS db profiles actor newReqId myEventId slotUserId slotId).2.events) := by
  have hmeb : db.events.any (fun e => e.id = myEventId) = true := by
    rcases hme with ⟨e, he, hid⟩
    exact List.any_eq_true.mpr ⟨e, he, decide_eq_true hid⟩
  have hseb : db.events.any (fun e => e.id = slotId) = true := by
    rcases hse with ⟨e, he, hid⟩
    exact List.any_eq_true.mpr ⟨e, he, decide_eq_true hid⟩
  have hchar := requestSwapRLS_char db profiles actor newReqId myEventId slotUserId slotId
    hap hop hmeb hseb
  refine ⟨hchar.1, hchar.2.1, hchar.2.2, ?_⟩
  intro e he hne
  rw [hchar.2.2]
  refine List.mem_map.mpr ⟨e, he, ?_⟩
  rw [if_neg (show ¬((e.id = myEventId ∨ e.id = slotId) ∧ e.user_id = actor)
    from fun hc => hne hc.2)]

/-- Witness for C3 at the concrete BUSY-slot state. -/
theorem requestSwap_no_validation_witness :
    (requestSwapRLS ⟨[⟨1, 10, ['a'], 0, 1, EventStatus.SWAPPABLE⟩,
        ⟨2, 20, ['b'], 0, 1, EventStatus.BUSY⟩], []⟩ [10, 20] 10 5 1 20 2).1
      = Except.ok () :=
  (requestSwap_no_validation ⟨[⟨1, 10, ['a'], 0, 1, EventStatus.SWAPPABLE⟩,
      ⟨2, 20, ['b'], 0, 1, EventStatus.BUSY⟩], []⟩ [10, 20] 10 5 1 20 2
    (by decide) (by decide)
    ⟨⟨1, 10, ['a'], 0, 1, EventStatus.SWAPPABLE⟩, by decide, rfl⟩
    ⟨⟨2, 20, ['b'], 0, 1, EventStatus.BUSY⟩, by decide, rfl⟩).1

/-! C4: the multi-record operations are not atomic. -/

/-- C4 counterexample: on a reachable state with two SWAPPABLE events of
different profiles, a marketplace swap request reports success, yet
only a part of the operations writes committed: the request row was
inserted and the requesters event became SWAP_PENDING, while the write
against the foreign slot was filtered to zero rows, so the slot never
became SWAP_PENDING.  A partially-applied state is reachable with the
caller observing success. -/
theorem requestSwap_partial_commit_counterexample :
    (requestSwapRLS ⟨[⟨1, 10, ['a'], 0, 1, EventStatus.SWAPPABLE⟩,
        ⟨2, 20, ['b'], 0, 1, EventStatus.SWAPPABLE⟩], []⟩ [10, 20] 10 5 1 20 2
      = (Except.ok (), ⟨[⟨1, 10, ['a'], 0, 1, EventStatus.SWAP_PENDING⟩,
          ⟨2, 20, ['b'], 0, 1, EventStatus.SWAPPABLE⟩],
         [⟨5, 10, 1, 20, 2, SwapStatus.PENDING⟩]⟩)) ∧
    ((⟨[⟨1, 10, ['a'], 0, 1, EventStatus.SWAP_PENDING⟩,
          ⟨2, 20, ['b'], 0, 1, EventStatus.SWAPPABLE⟩],
         [⟨5, 10, 1, 20, 2, SwapStatus.PENDING⟩]⟩ : DB)
      ≠ ⟨[⟨1, 10, ['a'], 0, 1, EventStatus.SWAPPABLE⟩,
          ⟨2, 20, ['b'], 0, 1, EventStatus.SWAPPABLE⟩], []⟩) ∧
    ¬ ((requestSwapRLS ⟨[⟨1, 10, ['a'], 0, 1, EventStatus.SWAPPABLE⟩,
        ⟨2, 20, ['b'], 0, 1, EventStatus.SWAPPABLE⟩], []⟩ [10, 20] 10 5 1 20 2).2.events.map
          Event.status
      = [EventStatus.SWAP_PENDING, EventStatus.SWAP_PENDING]) := by
  decide

/-- C4 amended: the operations are not storage-transaction-backed and
partial application is the NORM, not a failure mode: whenever the
referenced rows exist and the selected slot belongs to another profile
(every marketplace invocation), CreateSwapRequest reports success with
the request insert committed while every row of the slots id survives
unchanged — the operations SWAP_PENDING write to it was never applied.
Likewise Reject commits the request update without the requester event
update, and Accepts first write errors, so acceptance applies nothing
at all. -/
theorem requestSwap_partial_commit (db : DB) (profiles : List Nat) (actor : Nat)
    (newReqId myEventId slotUserId slotId : Nat)
    (hap : actor ∈ profiles) (hop : slotUserId ∈ profiles)
    (hme : ∃ e ∈ db.events, e.id = myEventId) (hse : ∃ e ∈ db.events, e.id = slotId)
    (hforeign : ∀ e ∈ db.events, e.id = slotId → e.user_id ≠ actor) :
    ((requestSwapRLS db profiles actor newReqId myEventId slotUserId slotId).1
      = Except.ok ()) ∧
    ((requestSwapRLS db profiles actor newReqId myEventId slotUserId slotId).2.swap_requests
      = db.swap_requests
        ++ [⟨newReqId, actor, myEventId, slotUserId, slotId, SwapStatus.PENDING⟩]) ∧
    (∀ e ∈ db.events, e.id = slotId →
      e ∈ (requestSwapRLS db profiles actor newReqId myEventId slotUserId slotId).2.events) := by
  have hmeb : db.events.any (fun e => e.id = myEventId) = true := by
    rcases hme with ⟨e, he, hid⟩
    exact List.any_eq_true.mpr ⟨e, he, decide_eq_true hid⟩
  have hseb : db.events.any (fun e => e.id = slotId) = true := by
    rcases hse with ⟨e, he, hid⟩
    exact List.any_eq_true.mpr ⟨e, he, decide_eq_true hid⟩
  have hchar := requestSwapRLS_char db profiles actor newReqId myEventId slotUserId slotId
    hap hop hmeb hseb
  refine ⟨hchar.1, hchar.2.1, ?_⟩
  intro e he hid
  rw [hchar.2.2]
  refine List.mem_map.mpr ⟨e, he, ?_⟩
  rw [if_neg (show ¬((e.id = myEventId ∨ e.id = slotId) ∧ e.user_id = actor)
    from fun hc => hforeign e he hid hc.2)]

/-- Witness for C4 at a concrete state with foreign SWAPPABLE slot. -/
theorem requestSwap_partial_commit_witness :
    ((requestSwapRLS ⟨[⟨3, 11, ['c'], 0, 1, EventStatus.SWAPPABLE⟩,
        ⟨4, 21, ['d'], 0, 1, EventStatus.SWAPPABLE⟩], []⟩ [11, 21] 11 7 3 21 4).1
      = Except.ok ()) ∧
    (⟨4, 21, ['d'], 0, 1, EventStatus.SWAPPABLE⟩ ∈
      (requestSwapRLS ⟨[⟨3, 11, ['c'], 0, 1, EventStatus.SWAPPABLE⟩,
        ⟨4, 21, ['d'], 0, 1, EventStatus.SWAPPABLE⟩], []⟩ [11, 21] 11 7 3 21 4).2.events) := by
  have h := requestSwap_partial_commit ⟨[⟨3, 11, ['c'], 0, 1, EventStatus.SWAPPABLE⟩,
      ⟨4, 21, ['d'], 0, 1, EventStatus.SWAPPABLE⟩], []⟩ [11, 21] 11 7 3 21 4
    (by decide) (by decide)
    ⟨⟨3, 11, ['c'], 0, 1, EventStatus.SWAPPABLE⟩, by decide, rfl⟩
    ⟨⟨4, 21, ['d'], 0, 1, EventStatus.SWAPPABLE⟩, by decide, rfl⟩ (by decide)
  exact ⟨h.1, h.2.2 ⟨4, 21, ['d'], 0, 1, EventStatus.SWAPPABLE⟩ (by decide) rfl⟩

end SlotSwapper
